import Mathlib

/-!
Shallow embedding of the granola-coach repository core
(src/granola_client.py and src/analyze_meetings.py) and proofs about it.

Modelling conventions:
* Python dictionaries with a fixed set of probed keys become structures whose
  fields are `Option`-valued (a `none` field plays the role of an absent key /
  a `dict.get` miss).
* Machine-level HTTP is abstracted into environment records: the status code
  and JSON-parsability of the i-th response to an endpoint, and the content of
  the token-refresh response.  Network-level exceptions are not modelled
  (they take the same `except requests.exceptions.RequestException` path as a
  4xx/5xx status in `_make_request`).
* Raised Python exceptions become `Except` errors; an uncaught `KeyError`
  is distinguished from a plain `Exception`.
* `datetime` values are modelled as an awareness flag plus a point on an
  integer time line (seconds); comparing a naive and an aware value is a
  `TypeError`, exactly as in Python.
* Calendar dates in feedback filenames are modelled as integer day indices;
  `(datetime.now() - file_date).days` equals the difference of day indices
  because `file_date` is midnight and `now` is within the current day.
-/

namespace Granola

/-! ## Data model: client state and Python-style errors -/

/-- Error raised out of the client: either a plain `Exception(msg)` or an
uncaught `KeyError` (from `data['access_token']` in `_refresh_access_token`). -/
inductive PyErr where
  | exn (msg : String)
  | keyErr (key : String)
deriving Repr, DecidableEq

/-- Token state of `GranolaClient` (`self.access_token`, `self.refresh_token`,
`self.client_id`), as left by `_load_credentials` / `_refresh_access_token`. -/
structure ClientState where
  access_token : Option String
  refresh_token : Option String
  client_id : String
deriving Repr, DecidableEq

/-! ## Credential loading (`GranolaClient._load_credentials`) -/

/-- Inner token object: the parsed `workos_tokens` JSON string, the
`currentSession` sub-object, or the top-level pair, with `dict.get` misses as
`none`. -/
structure TokenPair where
  access_token : Option String
  refresh_token : Option String
deriving Repr, DecidableEq

/-- Parsed credential file (a JSON object).  `workos_tokens = some none`
models a present `workos_tokens` key whose string value is not valid JSON
(`json.loads` raises `JSONDecodeError` inside the same `try`).
`has_access_token_key` models the `'access_token' in creds` membership test,
which is independent of the value being null. -/
structure CredsFile where
  workos_tokens : Option (Option TokenPair)
  currentSession : Option TokenPair
  has_access_token_key : Bool
  access_token : Option String
  refresh_token : Option String
  client_id : Option String
deriving Repr, DecidableEq

/-- State of the credential file on disk as seen by `open` + `json.load`. -/
inductive CredsSource where
  | missing
  | unparsable
  | parsed (c : CredsFile)
deriving Repr, DecidableEq

/-- Fallback client id used when the file has no `client_id` key. -/
def DEFAULT_CLIENT_ID : String := "client_01JARHTH2HQ6D64XDAEVXFNQ44"

/-- Message of the `FileNotFoundError` handler in `_load_credentials`. -/
def CREDS_NOT_FOUND_MSG : String :=
  "Granola credentials not found. Please make sure Granola app is installed and you are logged in."

/-- Message of the `json.JSONDecodeError` handler in `_load_credentials`. -/
def CREDS_PARSE_ERROR_MSG : String := "Failed to parse Granola credentials file."

/-- Embedding of `GranolaClient._load_credentials` (granola_client.py lines
26-54): probe `workos_tokens`, then `currentSession`, then top-level
`access_token`; no matching shape still constructs successfully with both
tokens left `None`. -/
def load_credentials : CredsSource → Except String ClientState
  | .missing => .error CREDS_NOT_FOUND_MSG
  | .unparsable => .error CREDS_PARSE_ERROR_MSG
  | .parsed c =>
    match c.workos_tokens with
    | some none => .error CREDS_PARSE_ERROR_MSG
    | some (some wt) => .ok ⟨wt.access_token, wt.refresh_token, c.client_id.getD DEFAULT_CLIENT_ID⟩
    | none =>
      match c.currentSession with
      | some s => .ok ⟨s.access_token, s.refresh_token, c.client_id.getD DEFAULT_CLIENT_ID⟩
      | none =>
        if c.has_access_token_key then
          .ok ⟨c.access_token, c.refresh_token, c.client_id.getD DEFAULT_CLIENT_ID⟩
        else
          .ok ⟨none, none, c.client_id.getD DEFAULT_CLIENT_ID⟩

/-- Whether `GranolaClient.__init__` returns without raising, for a given
on-disk credential state. -/
def creds_construction_ok (src : CredsSource) : Bool :=
  match load_credentials src with
  | .ok _ => true
  | .error _ => false

/-- Spec-side success condition (refinement target, named from the spec's
words): construction succeeds exactly when the file is present, parses as a
JSON object, and any present `workos_tokens` string parses as well. -/
def creds_parse_ok_spec : CredsSource → Bool
  | .parsed c => match c.workos_tokens with
    | some none => false
    | _ => true
  | _ => false

/-- Credential file holding a valid but empty JSON object. -/
def emptyCredsFile : CredsFile := ⟨none, none, false, none, none, none⟩

/-! ## Request layer (`_refresh_access_token`, `_make_request`) -/

/-- Content of the WorkOS refresh response: HTTP status, whether the body is
valid JSON, and the token fields of the body (`none` models an absent key,
which raises an uncaught `KeyError`). -/
structure RefreshEnv where
  status : Nat
  jsonOk : Bool
  access_token : Option String
  refresh_token : Option String

/-- Embedding of `requests.Response.raise_for_status`: raises exactly for
status codes 400-599. -/
def raise_for_status (status : Nat) : Bool :=
  decide (400 ≤ status) && decide (status < 600)

/-- Successful (2xx) status codes. -/
def is2xx (status : Nat) : Bool :=
  decide (200 ≤ status) && decide (status < 300)

/-- Embedding of `GranolaClient._refresh_access_token` (granola_client.py
lines 56-80).  `requests.exceptions.RequestException` (non-2xx status or an
unparsable body, under requests >= 2.27) is converted to a plain
`Exception("Failed to refresh access token")`; a missing token field in the
body raises an uncaught `KeyError`.  The subsequent `_save_refresh_token`
swallows every exception, so it does not affect control flow and is not
modelled further. -/
def refresh_access_token (renv : RefreshEnv) (st : ClientState) : Except PyErr ClientState :=
  match st.refresh_token with
  | none => .error (.exn "No refresh token available")
  | some _ =>
    if raise_for_status renv.status then .error (.exn "Failed to refresh access token")
    else if !renv.jsonOk then .error (.exn "Failed to refresh access token")
    else
      match renv.access_token with
      | none => .error (.keyErr "access_token")
      | some a =>
        match renv.refresh_token with
        | none => .error (.keyErr "refresh_token")
        | some r => .ok ⟨some a, some r, st.client_id⟩

/-- Environment of one logical `_make_request` call: the status and
JSON-parsability of the i-th HTTP response delivered to this endpoint, and
the refresh endpoint's behaviour. -/
structure MakeEnv where
  respStatus : Nat → Nat
  respJsonOk : Nat → Bool
  refreshEnv : RefreshEnv

deriving instance DecidableEq for Except

/-- Observable outcome of `_make_request`: the result (`ok i` = the parsed
body of response `i`), the bearer token attached to each attempt in order,
and how many times `_refresh_access_token` ran. -/
structure CallTrace where
  result : Except PyErr Nat
  tokens : List (Option String)
  refreshCalls : Nat
deriving Repr, DecidableEq

/-- Embedding of `GranolaClient._make_request` with `retry_auth=False`
(granola_client.py lines 107-129): no refresh branch; any 4xx/5xx status
(401 included) becomes `Exception("API request failed")`. -/
def make_request_noRetry (env : MakeEnv) (st : ClientState) (idx : Nat) : CallTrace :=
  let s := env.respStatus idx
  if raise_for_status s then ⟨.error (.exn "API request failed"), [st.access_token], 0⟩
  else if env.respJsonOk idx then ⟨.ok idx, [st.access_token], 0⟩
  else ⟨.error (.exn "API request failed"), [st.access_token], 0⟩

/-- Embedding of `GranolaClient._make_request` with `retry_auth=True`: on a
401, refresh the token and retry exactly once with `retry_auth=False`.  A
refresh failure propagates unchanged (its plain `Exception` is not a
`RequestException`, so the surrounding handler does not catch it). -/
def make_request (env : MakeEnv) (st : ClientState) (idx : Nat) : CallTrace :=
  let s := env.respStatus idx
  if s = 401 then
    match refresh_access_token env.refreshEnv st with
    | .ok st2 =>
      let t := make_request_noRetry env st2 (idx + 1)
      ⟨t.result, st.access_token :: t.tokens, 1 + t.refreshCalls⟩
    | .error e => ⟨.error e, [st.access_token], 1⟩
  else if raise_for_status s then ⟨.error (.exn "API request failed"), [st.access_token], 0⟩
  else if env.respJsonOk idx then ⟨.ok idx, [st.access_token], 0⟩
  else ⟨.error (.exn "API request failed"), [st.access_token], 0⟩

/-- Environment for the C1 counterexample: a 401 followed by a 300 response
(a 3xx status that `requests` surfaces, e.g. 300 Multiple Choices with a
JSON body). -/
def c1_env300 : MakeEnv :=
  ⟨fun i => if i = 0 then 401 else 300, fun _ => true, ⟨200, true, some "newA", some "newR"⟩⟩

/-- Client state used by the C1 concrete instances. -/
def c1_st : ClientState := ⟨some "oldA", some "oldR", "cid"⟩

/-- Environment for the C1 witness: a 401 followed by a 200 response. -/
def c1_env200 : MakeEnv :=
  ⟨fun i => if i = 0 then 401 else 200, fun _ => true, ⟨200, true, some "newA", some "newR"⟩⟩

/-! ## Datetime model (for `get_meetings_in_date_range`) -/

/-- Python `datetime`: timezone-aware or naive, at a point on an integer time
line.  For an aware value, `seconds` is the UTC instant; for a naive value it
is the wall-clock reading. -/
structure PyDatetime where
  aware : Bool
  seconds : Int
deriving Repr, DecidableEq

/-- ISO-8601 `created_at` string of a document, abstracted: `hasTz` is true
when the string carries a timezone designator (a trailing `Z` or an explicit
offset), and `seconds` is the denoted instant (for `hasTz`) or the wall-clock
reading (for a naive string). -/
structure IsoTimestamp where
  hasTz : Bool
  seconds : Int
deriving Repr, DecidableEq

/-- Message of the `TypeError` Python raises when ordering a naive and an
aware `datetime`. -/
def TZ_CMP_ERROR : String := "TypeError: cannot compare offset-naive and offset-aware datetimes"

/-- Embedding of `datetime.fromisoformat(created_at.replace('Z', '+00:00'))`
(granola_client.py line 172): a `Z`-suffixed or offset-carrying string parses
to an aware datetime, a naive string parses to a naive datetime. -/
def parse_created_at (t : IsoTimestamp) : PyDatetime := ⟨t.hasTz, t.seconds⟩

/-- Python `a <= b` on datetimes: `TypeError` when exactly one side is naive,
otherwise the order on instants. -/
def dt_le (a b : PyDatetime) : Except String Bool :=
  if a.aware = b.aware then .ok (decide (a.seconds ≤ b.seconds)) else .error TZ_CMP_ERROR

/-- Python chained comparison `s <= c <= e` (granola_client.py line 175):
evaluates `s <= c` first and short-circuits on `False`. -/
def dt_between (s e c : PyDatetime) : Except String Bool :=
  match dt_le s c with
  | .error err => .error err
  | .ok false => .ok false
  | .ok true => dt_le c e

/-- Embedding of `date.replace(tzinfo=timezone.utc)` applied to a naive bound
(granola_client.py lines 155-158): the wall-clock reading is reinterpreted as
a UTC instant. -/
def tz_normalize (d : PyDatetime) : PyDatetime := if d.aware then d else ⟨true, d.seconds⟩

/-! ## Documents, transcripts, and the fetch/pagination engine -/

/-- One transcript utterance (a JSON object probed with `dict.get`). -/
structure Utterance where
  source : Option String
  text : Option String
deriving Repr, DecidableEq

/-- A document returned by the listing endpoint (`title` may be absent:
the code reads it with `doc.get('title', 'Unknown')`). -/
structure Doc where
  id : String
  title : Option String
  created_at : IsoTimestamp
deriving Repr, DecidableEq

/-- A document enriched with its fetched transcript
(`doc['transcript'] = transcript`). -/
structure Meeting where
  doc : Doc
  transcript : List Utterance
deriving Repr, DecidableEq

/-- Remote behaviour seen by `get_meetings_in_date_range`: `pages limit off`
is the `docs` list returned by `get_documents(limit, off)`, and
`transcript id` is the outcome of `get_document_transcript(id)`. -/
structure FetchEnv where
  pages : Nat → Nat → List Doc
  transcript : String → Except String (List Utterance)

/-- Warning printed when one document's transcript fetch fails
(granola_client.py line 182). -/
def transcript_warning (d : Doc) (msg : String) : String :=
  "Warning: Failed to fetch transcript for " ++ d.title.getD "Unknown" ++ ": " ++ msg

/-- Accumulator of the scan: collected meetings (`all_meetings`) plus the
warnings printed so far. -/
structure Accum where
  meetings : List Meeting
  warnings : List String
deriving Repr, DecidableEq

/-- Body of the `for doc in documents` loop (granola_client.py lines
170-183): parse `created_at` (a comparison `TypeError` propagates and aborts
the scan), filter by range, fetch the transcript, and on a transcript error
print a warning and continue. -/
def process_doc (env : FetchEnv) (s e : PyDatetime) (acc : Accum) (d : Doc) :
    Except String Accum :=
  match dt_between s e (parse_created_at d.created_at) with
  | .error err => .error err
  | .ok true =>
    match env.transcript d.id with
    | .ok tr => .ok ⟨acc.meetings ++ [⟨d, tr⟩], acc.warnings⟩
    | .error msg => .ok ⟨acc.meetings, acc.warnings ++ [transcript_warning d msg]⟩
  | .ok false => .ok acc

/-- The per-page document loop: `process_doc` over the page in order. -/
def process_docs (env : FetchEnv) (s e : PyDatetime) :
    List Doc → Accum → Except String Accum
  | [], acc => .ok acc
  | d :: ds, acc =>
    match process_doc env s e acc d with
    | .error err => .error err
    | .ok acc2 => process_docs env s e ds acc2

/-- Trace of one scan: every `(limit, offset)` pair requested from the
listing endpoint, in order, and the final outcome. -/
structure ScanTrace where
  requests : List (Nat × Nat)
  outcome : Except String Accum

/-- Embedding of the `while True` pagination loop (granola_client.py lines
160-191), with explicit fuel because the Python loop has no upper bound:
`none` means the fuel ran out with the loop still going.  Each iteration
requests `(limit=100, offset)`, stops on an empty page, processes the page,
stops when the page held fewer than 100 documents, else advances the offset
by 100. -/
def page_loop (env : FetchEnv) (s e : PyDatetime) :
    Nat → Nat → Accum → List (Nat × Nat) → Option ScanTrace
  | 0, _, _, _ => none
  | fuel + 1, offset, acc, reqs =>
    let docs := env.pages 100 offset
    let reqs2 := reqs ++ [(100, offset)]
    if docs.isEmpty then some ⟨reqs2, .ok acc⟩
    else
      match process_docs env s e docs acc with
      | .error err => some ⟨reqs2, .error err⟩
      | .ok acc2 =>
        if docs.length < 100 then some ⟨reqs2, .ok acc2⟩
        else page_loop env s e fuel (offset + 100) acc2 reqs2

/-- Embedding of `GranolaClient.get_meetings_in_date_range` (granola_client.py
lines 150-191): normalize naive bounds to UTC, run the pagination loop, and
return the collected meetings. -/
def get_meetings_in_date_range (env : FetchEnv) (s e : PyDatetime) (fuel : Nat) :
    Option (Except String (List Meeting)) :=
  match page_loop env (tz_normalize s) (tz_normalize e) fuel 0 ⟨[], []⟩ [] with
  | none => none
  | some t => some (t.outcome.map Accum.meetings)

/-! ## Transcript endpoint response handling and formatting -/

/-- JSON body of the transcript endpoint response: a bare list of utterances,
an object (e.g. a wrapper with some keys), or any other JSON value. -/
inductive TranscriptResponse where
  | jsonList (utts : List Utterance)
  | jsonObject (keys : List String)
  | jsonOther
deriving Repr, DecidableEq

/-- The `isinstance(response, list)` test. -/
def isinstance_list : TranscriptResponse → Bool
  | .jsonList _ => true
  | _ => false

/-- Embedding of the body handling in `GranolaClient.get_document_transcript`
(granola_client.py lines 142-148): return the body when it is a list, else
the empty list. -/
def get_document_transcript (resp : TranscriptResponse) : List Utterance :=
  match resp with
  | .jsonList utts => utts
  | _ => []

/-- One formatted transcript line
(`f"{utterance.get('source', 'Unknown')}: {utterance.get('text', '')}"`). -/
def utterance_line (u : Utterance) : String :=
  u.source.getD "Unknown" ++ ": " ++ u.text.getD ""

/-- Embedding of `GranolaClient.format_transcript_text` (granola_client.py
lines 193-204): empty transcript gives the empty string, otherwise the lines
are built in order and joined with a newline. -/
def format_transcript_text (transcript : List Utterance) : String :=
  if transcript.isEmpty then ""
  else String.intercalate "\n" (transcript.map utterance_line)

/-- Spec-side join (named from the spec's words, used as the refinement
target for C9): one line per utterance in input order, newline-separated. -/
def lines_join_spec : List String → String
  | [] => ""
  | [l] => l
  | l :: l2 :: rest => l ++ "\n" ++ lines_join_spec (l2 :: rest)

/-- Spec-side transcript formatting. -/
def format_transcript_spec (ts : List Utterance) : String :=
  lines_join_spec (ts.map utterance_line)

/-! ## Processed-document ledger (`analyze_meetings.py`) -/

/-- In-memory analysis state, `{"processed_documents": [...]}`. -/
structure RunnerState where
  processed_documents : List String
deriving Repr, DecidableEq

/-- Embedding of `MeetingAnalysisRunner._mark_as_processed` (analyze_meetings
lines 58-62).  The returned Bool is true exactly when `_save_state` ran; the
content it persists is the returned state.  The membership test, the append
and the save all sit inside the `if document_id not in ...` branch. -/
def mark_as_processed (st : RunnerState) (id : String) : RunnerState × Bool :=
  if st.processed_documents.contains id then (st, false)
  else (⟨st.processed_documents ++ [id]⟩, true)

/-- Embedding of `MeetingAnalysisRunner._is_processed` (lines 64-66). -/
def is_processed (st : RunnerState) (id : String) : Bool :=
  st.processed_documents.contains id

/-- Embedding of the filtering stage of `MeetingAnalysisRunner.fetch_meetings`
(lines 68-83), over an already-fetched meeting list. -/
def fetch_meetings_filter (st : RunnerState) (meetings : List Meeting) (new_only : Bool) :
    List Meeting :=
  if new_only then meetings.filter (fun m => !is_processed st m.doc.id) else meetings

/-! ## Previous-feedback loading (`_load_previous_feedback`) -/

/-- One feedback file: its name, the day index encoded in the filename
(`feedback_YYYYMMDD.txt`), and its content.  Files whose names do not parse
are skipped by the code and are outside this model. -/
structure FeedbackFile where
  name : String
  date : Int
  content : String
deriving Repr, DecidableEq

/-- The `1 <= days_ago <= 7` window test, with
`days_ago = (datetime.now() - file_date).days = today - file.date`. -/
def feedback_in_window (today : Int) (f : FeedbackFile) : Bool :=
  decide (1 ≤ today - f.date) && decide (today - f.date ≤ 7)

/-- The `feedback_files` list collected by the glob loop (analyze_meetings
lines 100-111), before sorting. -/
def feedback_candidates (today : Int) (files : List FeedbackFile) : List FeedbackFile :=
  files.filter (feedback_in_window today)

/-- Sort key of `feedback_files.sort(reverse=True)`: Python sorts the
`(file_date, path)` tuples, so descending lexicographically by date then
name. -/
def fbKey (f : FeedbackFile) : Lex (Int × String) := toLex (f.date, f.name)

/-- Descending order on feedback files. -/
def fbGe (a b : FeedbackFile) : Prop := fbKey b ≤ fbKey a

instance : DecidableRel fbGe := fun a b => inferInstanceAs (Decidable (fbKey b ≤ fbKey a))

/-- The `feedback_files.sort(reverse=True)` step. -/
def sort_files_desc (l : List FeedbackFile) : List FeedbackFile :=
  List.insertionSort fbGe l

/-- The files whose contents end up in the combined feedback:
`feedback_files[:3]` after the descending sort (analyze_meetings lines
117-121). -/
def selected_feedback (today : Int) (files : List FeedbackFile) : List FeedbackFile :=
  (sort_files_desc (feedback_candidates today files)).take 3

/-- One block of the combined feedback,
`f"[{date.strftime('%Y-%m-%d')}]\n{open(file).read()}"` (the calendar
rendering of the day index is abstracted to `toString`). -/
def render_feedback (f : FeedbackFile) : String :=
  "[" ++ toString f.date ++ "]\n" ++ f.content

/-- Embedding of `MeetingAnalysisRunner._load_previous_feedback` (lines
96-127): `None` when no file is in the window, else the three most recent
window files joined with blank lines (and `None` again if the join is
empty). -/
def load_previous_feedback (today : Int) (files : List FeedbackFile) : Option String :=
  if (feedback_candidates today files).isEmpty then none
  else
    let combined := String.intercalate "\n\n" ((selected_feedback today files).map render_feedback)
    if combined = "" then none else some combined

/-- Feedback directory for the C8 concrete instances: four files dated 1, 2,
3 and 4 days before day 10. -/
def c8_files : List FeedbackFile :=
  [⟨"feedback_09", 9, "a"⟩, ⟨"feedback_08", 8, "b"⟩, ⟨"feedback_07", 7, "c"⟩,
   ⟨"feedback_06", 6, "d"⟩]

/-- Listing environment for the C4 counterexample: one page holding a single
document whose `created_at` lacks a timezone designator. -/
def c4_env : FetchEnv :=
  ⟨fun _ off => if off = 0 then [⟨"d1", some "Standup", ⟨false, 50⟩⟩] else [],
   fun _ => .ok []⟩

/-- An all-aware document used by the C5 witness. -/
def c5_doc : Doc := ⟨"d", some "t", ⟨true, 5⟩⟩

/-- Listing environment for the C5 witness: a full page of 100 documents at
offset 0, then an empty page. -/
def c5_env : FetchEnv :=
  ⟨fun _ off => if off = 0 then List.replicate 100 c5_doc else [], fun _ => .ok []⟩

/-- Environment for the C6 witness: the transcript of document `bad` fails,
every other transcript downloads. -/
def c6_env : FetchEnv :=
  ⟨fun _ _ => [], fun i => if i = "bad" then .error "boom" else .ok [⟨some "A", some "x"⟩]⟩

/-- Documents for the C6 witness, all aware and in range for bounds
`[0, 100]`. -/
def c6_good1 : Doc := ⟨"g1", some "one", ⟨true, 10⟩⟩

/-- Second good document for the C6 witness. -/
def c6_good2 : Doc := ⟨"g2", some "two", ⟨true, 20⟩⟩

/-- The failing document for the C6 witness. -/
def c6_bad : Doc := ⟨"bad", some "broken", ⟨true, 15⟩⟩

/-- Meetings for the C7 witness. -/
def c7_mA : Meeting := ⟨⟨"a", some "A", ⟨true, 1⟩⟩, []⟩

/-- Second meeting for the C7 witness (unprocessed id). -/
def c7_mB : Meeting := ⟨⟨"b", some "B", ⟨true, 2⟩⟩, []⟩

/-! ## Helper lemmas -/

/-- Comparing an aware timestamp against aware bounds never raises and is
inclusive on both ends. -/
theorem dt_between_aware (s e : PyDatetime) (ts : IsoTimestamp)
    (hs : s.aware = true) (he : e.aware = true) (ht : ts.hasTz = true) :
    dt_between s e (parse_created_at ts) =
      .ok (decide (s.seconds ≤ ts.seconds ∧ ts.seconds ≤ e.seconds)) := by
  by_cases h1 : s.seconds ≤ ts.seconds
  · by_cases h2 : ts.seconds ≤ e.seconds
    · simp [dt_between, dt_le, parse_created_at, hs, he, ht, h1, h2]
    · simp [dt_between, dt_le, parse_created_at, hs, he, ht, h1, h2]
  · simp [dt_between, dt_le, parse_created_at, hs, he, ht, h1]

/-- Comparing a naive timestamp against an aware start bound raises a
`TypeError`. -/
theorem dt_between_naive_error (s e : PyDatetime) (ts : IsoTimestamp)
    (hs : s.aware = true) (ht : ts.hasTz = false) :
    dt_between s e (parse_created_at ts) = .error TZ_CMP_ERROR := by
  simp [dt_between, dt_le, parse_created_at, hs, ht]

/-- Processing one aware document between aware bounds never raises. -/
theorem process_doc_aware_ok (env : FetchEnv) (s e : PyDatetime) (acc : Accum) (d : Doc)
    (hs : s.aware = true) (he : e.aware = true) (hd : d.created_at.hasTz = true) :
    ∃ acc2, process_doc env s e acc d = .ok acc2 := by
  unfold process_doc
  rw [dt_between_aware s e d.created_at hs he hd]
  by_cases hc : s.seconds ≤ d.created_at.seconds ∧ d.created_at.seconds ≤ e.seconds
  · cases henv : env.transcript d.id with
    | ok tr =>
      refine ⟨⟨acc.meetings ++ [⟨d, tr⟩], acc.warnings⟩, ?_⟩
      simp [decide_eq_true hc, henv]
    | error m =>
      refine ⟨⟨acc.meetings, acc.warnings ++ [transcript_warning d m]⟩, ?_⟩
      simp [decide_eq_true hc, henv]
  · exact ⟨acc, by simp [decide_eq_false hc]⟩

/-- Processing a page of aware documents between aware bounds never raises. -/
theorem process_docs_aware_ok (env : FetchEnv) (s e : PyDatetime)
    (hs : s.aware = true) (he : e.aware = true) :
    ∀ (docs : List Doc) (acc : Accum), (∀ d ∈ docs, d.created_at.hasTz = true) →
      ∃ acc2, process_docs env s e docs acc = .ok acc2 := by
  intro docs
  induction docs with
  | nil => exact fun acc _ => ⟨acc, rfl⟩
  | cons d ds ih =>
    intro acc hall
    obtain ⟨acc1, h1⟩ := process_doc_aware_ok env s e acc d hs he (hall d (by simp))
    obtain ⟨acc2, h2⟩ := ih acc1 (fun x hx => hall x (by simp [hx]))
    exact ⟨acc2, by simp [process_docs, h1, h2]⟩

/-- The per-page loop splits over list append. -/
theorem process_docs_append (env : FetchEnv) (s e : PyDatetime) :
    ∀ (xs ys : List Doc) (acc : Accum),
      process_docs env s e (xs ++ ys) acc =
        match process_docs env s e xs acc with
        | .error err => .error err
        | .ok acc2 => process_docs env s e ys acc2 := by
  intro xs
  induction xs with
  | nil => intro ys acc; rfl
  | cons d ds ih =>
    intro ys acc
    cases hd : process_doc env s e acc d with
    | error err => simp [List.cons_append, process_docs, hd]
    | ok acc2 =>
      simp only [List.cons_append, process_docs, hd]
      exact ih ys acc2

/-- The meetings component of the scan does not depend on the warnings
accumulated so far. -/
theorem process_docs_meetings_indep (env : FetchEnv) (s e : PyDatetime) :
    ∀ (docs : List Doc) (m : List Meeting) (w w2 : List String),
      (process_docs env s e docs ⟨m, w⟩).map Accum.meetings =
        (process_docs env s e docs ⟨m, w2⟩).map Accum.meetings := by
  intro docs
  induction docs with
  | nil => intro m w w2; rfl
  | cons d ds ih =>
    intro m w w2
    unfold process_docs process_doc
    cases dt_between s e (parse_created_at d.created_at) with
    | error err => rfl
    | ok b =>
      cases b with
      | false => exact ih m w w2
      | true =>
        cases env.transcript d.id with
        | ok tr => exact ih (m ++ [⟨d, tr⟩]) w w2
        | error msg => exact ih m (w ++ [transcript_warning d msg]) (w2 ++ [transcript_warning d msg])

/-- Processing one document never discards warnings already accumulated. -/
theorem process_doc_warning_mono (env : FetchEnv) (s e : PyDatetime) (acc : Accum) (d : Doc)
    (x : String) (hx : x ∈ acc.warnings) :
    ∀ acc2, process_doc env s e acc d = .ok acc2 → x ∈ acc2.warnings := by
  intro acc2 h
  unfold process_doc at h
  cases hdt : dt_between s e (parse_created_at d.created_at) with
  | error err => rw [hdt] at h; cases h
  | ok b =>
    rw [hdt] at h
    cases b with
    | false => cases h; exact hx
    | true =>
      cases htr : env.transcript d.id with
      | ok tr => rw [htr] at h; cases h; exact hx
      | error msg => rw [htr] at h; cases h; exact List.mem_append_left _ hx

/-- The per-page loop never discards warnings already accumulated. -/
theorem process_docs_warning_mono (env : FetchEnv) (s e : PyDatetime) :
    ∀ (docs : List Doc) (acc : Accum) (x : String), x ∈ acc.warnings →
      ∀ acc2, process_docs env s e docs acc = .ok acc2 → x ∈ acc2.warnings := by
  intro docs
  induction docs with
  | nil =>
    intro acc x hx acc2 h
    cases h; exact hx
  | cons d ds ih =>
    intro acc x hx acc2 h
    unfold process_docs at h
    cases hd : process_doc env s e acc d with
    | error err => rw [hd] at h; cases h
    | ok acc1 =>
      rw [hd] at h
      exact ih acc1 x (process_doc_warning_mono env s e acc d x hx acc1 hd) acc2 h

/-- Prepending a string to the head of a join distributes over the first
line. -/
theorem lines_join_spec_prepend (p a : String) :
    ∀ rest : List String, lines_join_spec ((p ++ a) :: rest) = p ++ lines_join_spec (a :: rest) := by
  intro rest
  cases rest with
  | nil => rfl
  | cons b bs => simp [lines_join_spec, String.append_assoc]

/-- The accumulator form of `String.intercalate` with a newline separator
computes the spec-side join. -/
theorem intercalate_go_newline :
    ∀ (as : List String) (acc : String),
      String.intercalate.go acc "\n" as = lines_join_spec (acc :: as) := by
  intro as
  induction as with
  | nil => intro acc; rfl
  | cons a rest ih =>
    intro acc
    show String.intercalate.go (acc ++ "\n" ++ a) "\n" rest = _
    rw [ih (acc ++ "\n" ++ a)]
    exact lines_join_spec_prepend (acc ++ "\n") a rest

/-- `String.intercalate "\n"` equals the spec-side join. -/
theorem intercalate_newline_eq (ls : List String) :
    String.intercalate "\n" ls = lines_join_spec ls := by
  cases ls with
  | nil => rfl
  | cons a as => exact intercalate_go_newline as a

/-- Normalized bounds are always aware. -/
theorem tz_normalize_aware (d : PyDatetime) : (tz_normalize d).aware = true := by
  by_cases h : d.aware = true
  · simp [tz_normalize, h]
  · simp [tz_normalize, h]

/-- Splitting one step off a run of page offsets. -/
theorem range_map_offset_step (base m : Nat) :
    (List.range (m + 2)).map (fun k => ((100 : Nat), base + 100 * k)) =
      (100, base) :: (List.range (m + 1)).map (fun k => ((100 : Nat), base + 100 + 100 * k)) := by
  rw [List.range_succ_eq_map]
  simp only [List.map_cons, Nat.mul_zero, Nat.add_zero, List.map_map]
  congr 1
  apply List.map_congr_left
  intro a _
  simp only [Function.comp_apply]
  congr 1
  omega

/-- Trace of the pagination loop: starting at `base` with the first short
(or empty) page `n` steps ahead, the loop requests exactly the pages at
`base, base+100, ..., base+100*n` with limit 100 and stops there with an
`ok` outcome (given enough fuel and documents whose timestamps carry a
timezone). -/
theorem page_loop_trace (env : FetchEnv) (s e : PyDatetime)
    (hs : s.aware = true) (he : e.aware = true)
    (hAware : ∀ limit off d, d ∈ env.pages limit off → d.created_at.hasTz = true) :
    ∀ (n base : Nat) (acc : Accum) (reqs : List (Nat × Nat)),
      (∀ k, k < n → 100 ≤ (env.pages 100 (base + 100 * k)).length) →
      (env.pages 100 (base + 100 * n)).length < 100 →
      ∀ fuel, n < fuel →
        ∃ acc2, page_loop env s e fuel base acc reqs =
          some ⟨reqs ++ (List.range (n + 1)).map (fun k => (100, base + 100 * k)), .ok acc2⟩ := by
  intro n
  induction n with
  | zero =>
    intro base acc reqs hmin hshort fuel hfuel
    obtain ⟨f, rfl⟩ : ∃ f, fuel = f + 1 := ⟨fuel - 1, by omega⟩
    have hshort0 : (env.pages 100 base).length < 100 := by simpa using hshort
    by_cases hempty : (env.pages 100 base).isEmpty = true
    · exact ⟨acc, by simp [page_loop, hempty, List.range_succ]⟩
    · obtain ⟨acc2, hp⟩ := process_docs_aware_ok env s e hs he (env.pages 100 base) acc
        (fun d hd => hAware 100 base d hd)
      exact ⟨acc2, by simp [page_loop, hempty, hp, hshort0, List.range_succ]⟩
  | succ m ih =>
    intro base acc reqs hmin hshort fuel hfuel
    obtain ⟨f, rfl⟩ : ∃ f, fuel = f + 1 := ⟨fuel - 1, by omega⟩
    have hlen : 100 ≤ (env.pages 100 base).length := by
      have := hmin 0 (by omega)
      simpa using this
    have hempty : ¬((env.pages 100 base).isEmpty = true) := by
      cases hnil : env.pages 100 base with
      | nil => rw [hnil] at hlen; simp at hlen
      | cons a l => simp
    obtain ⟨acc1, hp⟩ := process_docs_aware_ok env s e hs he (env.pages 100 base) acc
      (fun d hd => hAware 100 base d hd)
    have hnotshort : ¬((env.pages 100 base).length < 100) := by omega
    obtain ⟨acc2, hrec⟩ := ih (base + 100) acc1 (reqs ++ [(100, base)])
      (fun k hk => by
        have := hmin (k + 1) (by omega)
        have harith : base + 100 * (k + 1) = base + 100 + 100 * k := by ring
        rwa [harith] at this)
      (by
        have harith : base + 100 * (m + 1) = base + 100 + 100 * m := by ring
        rwa [harith] at hshort)
      f (by omega)
    refine ⟨acc2, ?_⟩
    have hstep : page_loop env s e (f + 1) base acc reqs =
        page_loop env s e f (base + 100) acc1 (reqs ++ [(100, base)]) := by
      simp [page_loop, hempty, hp, hnotshort]
    rw [hstep, hrec]
    have htr : reqs ++ (List.range (m + 1 + 1)).map (fun k => ((100 : Nat), base + 100 * k)) =
        (reqs ++ [(100, base)]) ++
          (List.range (m + 1)).map (fun k => ((100 : Nat), base + 100 + 100 * k)) := by
      rw [range_map_offset_step base m]
      simp [List.append_assoc]
    rw [htr]

/-- The no-retry call never refreshes. -/
theorem make_request_noRetry_refreshCalls (env : MakeEnv) (st : ClientState) (idx : Nat) :
    (make_request_noRetry env st idx).refreshCalls = 0 := by
  unfold make_request_noRetry
  by_cases h1 : raise_for_status (env.respStatus idx) = true
  · simp [h1]
  · by_cases h2 : env.respJsonOk idx = true
    · simp [h1, h2]
    · simp [h1, h2]

/-- The no-retry call issues exactly one request, with the current token. -/
theorem make_request_noRetry_tokens (env : MakeEnv) (st : ClientState) (idx : Nat) :
    (make_request_noRetry env st idx).tokens = [st.access_token] := by
  unfold make_request_noRetry
  by_cases h1 : raise_for_status (env.respStatus idx) = true
  · simp [h1]
  · by_cases h2 : env.respJsonOk idx = true
    · simp [h1, h2]
    · simp [h1, h2]

/-- The no-retry call fails on any 4xx/5xx status (401 included). -/
theorem make_request_noRetry_result_raise (env : MakeEnv) (st : ClientState) (idx : Nat)
    (h : raise_for_status (env.respStatus idx) = true) :
    (make_request_noRetry env st idx).result = .error (.exn "API request failed") := by
  unfold make_request_noRetry
  simp [h]

/-- The no-retry call succeeds on a non-raising status with a parsable
body. -/
theorem make_request_noRetry_result_ok (env : MakeEnv) (st : ClientState) (idx : Nat)
    (h1 : raise_for_status (env.respStatus idx) = false) (h2 : env.respJsonOk idx = true) :
    (make_request_noRetry env st idx).result = .ok idx := by
  unfold make_request_noRetry
  simp [h1, h2]

/-! ## Claim theorems -/

/-- C1 counterexample: after a first 401 and a successful refresh, a retry
response with status 300 (non-2xx) is returned as a SUCCESS — `response.
raise_for_status()` only raises for 400-599 — refuting the claim that any
non-2xx status on the retry fails the call. -/
theorem make_request_retry_3xx_succeeds :
    (make_request c1_env300 c1_st 0).result = .ok 1 ∧
    is2xx (c1_env300.respStatus 1) = false ∧
    (make_request c1_env300 c1_st 0).refreshCalls = 1 := by
  refine ⟨rfl, rfl, rfl⟩

/-- C1 (amended): when the first response is a 401 and the token refresh
succeeds, `_make_request` refreshes exactly once and retries exactly once,
attaching the new access token to the second (and last) request; if the
retry returns 401 or any other 4xx/5xx status the call fails with
`Exception("API request failed")` with no third request ever issued, and a
2xx retry with a parsable body succeeds. -/
theorem make_request_401_refresh_retry_once (env : MakeEnv) (st : ClientState)
    (rt a r : String)
    (hrt : st.refresh_token = some rt)
    (hst : raise_for_status env.refreshEnv.status = false)
    (hjs : env.refreshEnv.jsonOk = true)
    (ha : env.refreshEnv.access_token = some a)
    (hr : env.refreshEnv.refresh_token = some r)
    (h401 : env.respStatus 0 = 401) :
    (make_request env st 0).refreshCalls = 1 ∧
    (make_request env st 0).tokens = [st.access_token, some a] ∧
    ((env.respStatus 1 = 401 ∨ raise_for_status (env.respStatus 1) = true) →
      (make_request env st 0).result = .error (.exn "API request failed")) ∧
    (is2xx (env.respStatus 1) = true → env.respJsonOk 1 = true →
      (make_request env st 0).result = .ok 1) := by
  have hrefresh : refresh_access_token env.refreshEnv st =
      .ok ⟨some a, some r, st.client_id⟩ := by
    unfold refresh_access_token
    rw [hrt]
    simp [hst, hjs, ha, hr]
  have hmk : make_request env st 0 =
      ⟨(make_request_noRetry env ⟨some a, some r, st.client_id⟩ 1).result,
        st.access_token :: (make_request_noRetry env ⟨some a, some r, st.client_id⟩ 1).tokens,
        1 + (make_request_noRetry env ⟨some a, some r, st.client_id⟩ 1).refreshCalls⟩ := by
    unfold make_request
    simp [h401, hrefresh]
  refine ⟨?_, ?_, ?_, ?_⟩
  · rw [hmk]
    simp [make_request_noRetry_refreshCalls]
  · rw [hmk]
    simp [make_request_noRetry_tokens]
  · intro hbad
    have hraise : raise_for_status (env.respStatus 1) = true := by
      cases hbad with
      | inl h => rw [h]; rfl
      | inr h => exact h
    rw [hmk]
    exact make_request_noRetry_result_raise env ⟨some a, some r, st.client_id⟩ 1 hraise
  · intro h2xx hjson
    have h2 := h2xx
    simp only [is2xx, Bool.and_eq_true, decide_eq_true_eq] at h2
    have hge : ¬(400 ≤ env.respStatus 1) := by omega
    have hraise : raise_for_status (env.respStatus 1) = false := by
      simp [raise_for_status, hge]
    rw [hmk]
    exact make_request_noRetry_result_ok env ⟨some a, some r, st.client_id⟩ 1 hraise hjson

/-- C1 witness: a 401 followed by a 200 refreshes once, retries with the new
token and succeeds on the second attempt. -/
theorem make_request_401_refresh_retry_once_witness :
    (make_request c1_env200 c1_st 0).refreshCalls = 1 ∧
    (make_request c1_env200 c1_st 0).tokens = [some "oldA", some "newA"] ∧
    (make_request c1_env200 c1_st 0).result = .ok 1 := by
  have h := make_request_401_refresh_retry_once c1_env200 c1_st "oldR" "newA" "newR"
    rfl rfl rfl rfl rfl rfl
  exact ⟨h.1, h.2.1, h.2.2.2 (by decide) rfl⟩

/-- C4 counterexample: one listed document whose `created_at` is
timezone-naive, with timezone-aware bounds `[0, 100]`: the scan aborts with
the comparison `TypeError` instead of treating the timestamp as UTC —
refuting the claim that naive timestamps are compared as UTC without error. -/
theorem get_meetings_naive_created_at_type_error :
    get_meetings_in_date_range c4_env ⟨true, 0⟩ ⟨true, 100⟩ 5 = some (.error TZ_CMP_ERROR) :=
  rfl

/-- C4 (amended): a `created_at` carrying a timezone designator (a trailing
`Z` — rewritten to `+00:00` — or an offset) is compared as a UTC instant
against the aware bounds, inclusively on both ends and without error; a
timezone-naive `created_at` instead raises the comparison `TypeError` (the
code does not assume UTC for naive timestamps). -/
theorem date_filter_aware_ok_naive_error :
    (∀ (s e : PyDatetime) (ts : IsoTimestamp), s.aware = true → e.aware = true →
      ts.hasTz = true →
      dt_between s e (parse_created_at ts) =
        .ok (decide (s.seconds ≤ ts.seconds ∧ ts.seconds ≤ e.seconds))) ∧
    (∀ (s e : PyDatetime) (ts : IsoTimestamp), s.aware = true → ts.hasTz = false →
      dt_between s e (parse_created_at ts) = .error TZ_CMP_ERROR) :=
  ⟨dt_between_aware, dt_between_naive_error⟩

/-- C4 witness: an aware timestamp at 50 is inside aware bounds `[0, 100]`
without error; the naive timestamp at 50 raises. -/
theorem date_filter_aware_ok_naive_error_witness :
    dt_between ⟨true, 0⟩ ⟨true, 100⟩ (parse_created_at ⟨true, 50⟩) = .ok true ∧
    dt_between ⟨true, 0⟩ ⟨true, 100⟩ (parse_created_at ⟨false, 50⟩) = .error TZ_CMP_ERROR := by
  constructor
  · rw [date_filter_aware_ok_naive_error.1 ⟨true, 0⟩ ⟨true, 100⟩ ⟨true, 50⟩ rfl rfl rfl]
    decide
  · exact date_filter_aware_ok_naive_error.2 ⟨true, 0⟩ ⟨true, 100⟩ ⟨false, 50⟩ rfl rfl

/-- C2 counterexample: a credential file holding the valid JSON object
`{}` matches no token shape, yet construction succeeds, with both
`access_token` and `refresh_token` left `None` — refuting the claim that a
successful construction always has both tokens present. -/
theorem load_credentials_empty_object_succeeds :
    creds_construction_ok (.parsed emptyCredsFile) = true ∧
    load_credentials (.parsed emptyCredsFile) = .ok ⟨none, none, DEFAULT_CLIENT_ID⟩ :=
  ⟨rfl, rfl⟩

/-- C2 (amended): construction fails exactly when the credential file is
missing, is not valid JSON, or its `workos_tokens` string is not valid JSON;
in every other case construction succeeds — even when no token shape matches,
in which case both tokens are left absent (the file-missing and parse-failure
errors carry the spec's messages). -/
theorem load_credentials_success_iff_parse :
    (∀ src : CredsSource, creds_construction_ok src = creds_parse_ok_spec src) ∧
    load_credentials (.parsed emptyCredsFile) = .ok ⟨none, none, DEFAULT_CLIENT_ID⟩ ∧
    load_credentials .missing = .error CREDS_NOT_FOUND_MSG ∧
    load_credentials .unparsable = .error CREDS_PARSE_ERROR_MSG := by
  refine ⟨?_, rfl, rfl, rfl⟩
  intro src
  cases src with
  | missing => rfl
  | unparsable => rfl
  | parsed c =>
    cases h : c.workos_tokens with
    | none =>
      cases h2 : c.currentSession with
      | none =>
        cases h3 : c.has_access_token_key with
        | false => simp [creds_construction_ok, load_credentials, creds_parse_ok_spec, h, h2, h3]
        | true => simp [creds_construction_ok, load_credentials, creds_parse_ok_spec, h, h2, h3]
      | some sess => simp [creds_construction_ok, load_credentials, creds_parse_ok_spec, h, h2]
    | some w =>
      cases w with
      | none => simp [creds_construction_ok, load_credentials, creds_parse_ok_spec, h]
      | some wt => simp [creds_construction_ok, load_credentials, creds_parse_ok_spec, h]

/-- C3 counterexample: re-marking an id that is already in the ledger leaves
the state unchanged and does NOT trigger a persistence write (`_save_state`
sits inside the `if document_id not in ...` branch) — refuting the claim
that a duplicate mark still writes the ledger file. -/
theorem mark_as_processed_duplicate_no_save :
    (mark_as_processed ⟨["doc1", "doc2", "doc3"]⟩ "doc3").2 = false ∧
    (mark_as_processed ⟨["doc1", "doc2", "doc3"]⟩ "doc3").1 = ⟨["doc1", "doc2", "doc3"]⟩ :=
  ⟨rfl, rfl⟩

/-- C3 (amended): `mark_processed(id)` on an id already in the ledger is a
complete no-op — membership is unchanged and no persistence write happens;
on a new id it appends the id and persists the ledger holding all prior
members plus the id. -/
theorem mark_as_processed_cases (st : RunnerState) (id : String) :
    (st.processed_documents.contains id = true → mark_as_processed st id = (st, false)) ∧
    (st.processed_documents.contains id = false →
      mark_as_processed st id = (⟨st.processed_documents ++ [id]⟩, true)) := by
  constructor
  · intro h
    unfold mark_as_processed
    rw [if_pos h]
  · intro h
    unfold mark_as_processed
    rw [if_neg (by rw [h]; exact Bool.false_ne_true)]

/-- C3 witness: the amended behaviour at the spec's own example ledger
`{"doc1","doc2"}` (+ re-marking `"doc3"` on `{"doc1","doc2","doc3"}`). -/
theorem mark_as_processed_cases_witness :
    mark_as_processed ⟨["doc1", "doc2", "doc3"]⟩ "doc3" = (⟨["doc1", "doc2", "doc3"]⟩, false) ∧
    mark_as_processed ⟨["doc1", "doc2"]⟩ "doc3" = (⟨["doc1", "doc2", "doc3"]⟩, true) :=
  ⟨(mark_as_processed_cases ⟨["doc1", "doc2", "doc3"]⟩ "doc3").1 (by decide),
   (mark_as_processed_cases ⟨["doc1", "doc2"]⟩ "doc3").2 (by decide)⟩

/-- C7: with the new-only filter requested, no meeting whose id is in the
ledger's processed set appears in the list submitted for analysis. -/
theorem new_only_filter_excludes_processed (st : RunnerState) (meetings : List Meeting)
    (m : Meeting) (hm : m ∈ fetch_meetings_filter st meetings true) :
    is_processed st m.doc.id = false ∧ m.doc.id ∉ st.processed_documents := by
  have h := hm
  simp only [fetch_meetings_filter, if_true] at h
  rw [List.mem_filter] at h
  have hpred : is_processed st m.doc.id = false := by
    have := h.2
    simpa using this
  refine ⟨hpred, ?_⟩
  intro hmem
  have : st.processed_documents.contains m.doc.id = true := by
    simpa [List.contains] using hmem
  rw [is_processed] at hpred
  rw [hpred] at this
  cases this

/-- C7 witness: with ledger `{"a"}`, the meeting with id `"b"` survives the
filter and is indeed unprocessed. -/
theorem new_only_filter_excludes_processed_witness :
    is_processed ⟨["a"]⟩ c7_mB.doc.id = false ∧ c7_mB.doc.id ∉ RunnerState.processed_documents ⟨["a"]⟩ :=
  new_only_filter_excludes_processed ⟨["a"]⟩ [c7_mA, c7_mB] c7_mB (by decide)

/-- C9: `format_transcript_text` joins the utterances as one
`"<speaker>: <text>"` line per utterance, newline-separated, preserving input
order (the spec-side recursive join); on the Alice/Bob example it returns
`"Alice: Hello\nBob: Hi"` and on an empty transcript the empty string. -/
theorem format_transcript_text_spec :
    (∀ ts : List Utterance, format_transcript_text ts = format_transcript_spec ts) ∧
    format_transcript_text [⟨some "Alice", some "Hello"⟩, ⟨some "Bob", some "Hi"⟩] =
      "Alice: Hello\nBob: Hi" ∧
    format_transcript_text [] = "" := by
  refine ⟨?_, by decide, rfl⟩
  intro ts
  cases ts with
  | nil => rfl
  | cons u us =>
    show String.intercalate "\n" ((u :: us).map utterance_line) = _
    rw [intercalate_newline_eq]
    rfl

/-- C10: a transcript-endpoint response body that is not a list (for example
an object wrapper) yields the empty utterance list, indistinguishable from an
empty-list response. -/
theorem get_document_transcript_nonlist_empty (resp : TranscriptResponse)
    (h : isinstance_list resp = false) :
    get_document_transcript resp = [] ∧
    get_document_transcript resp = get_document_transcript (.jsonList []) := by
  cases resp with
  | jsonList utts => simp [isinstance_list] at h
  | jsonObject keys => exact ⟨rfl, rfl⟩
  | jsonOther => exact ⟨rfl, rfl⟩

/-- C10 witness: an object wrapper response, e.g. with key `"transcript"`. -/
theorem get_document_transcript_nonlist_empty_witness :
    get_document_transcript (.jsonObject ["transcript"]) = [] ∧
    get_document_transcript (.jsonObject ["transcript"]) = get_document_transcript (.jsonList []) :=
  get_document_transcript_nonlist_empty (.jsonObject ["transcript"]) rfl

/-- C5: when page `n` (counting from 0) is the first page that is empty or
holds fewer than 100 documents, the scan requests exactly the pages of fixed
size 100 at offsets 0, 100, ..., 100*n — no request before a short page is
skipped and none follows one — and terminates there with a successful
outcome (documents are assumed timezone-carrying so that no comparison
`TypeError` cuts the scan short; the fuel bound reflects that the Python
loop has no intrinsic bound and only the short page stops it). -/
theorem pagination_trace_and_termination (env : FetchEnv) (s e : PyDatetime) (n fuel : Nat)
    (hAware : ∀ limit off d, d ∈ env.pages limit off → d.created_at.hasTz = true)
    (hmin : ∀ k, k < n → 100 ≤ (env.pages 100 (100 * k)).length)
    (hshort : (env.pages 100 (100 * n)).length < 100)
    (hfuel : n < fuel) :
    (∃ acc2, page_loop env (tz_normalize s) (tz_normalize e) fuel 0 ⟨[], []⟩ [] =
        some ⟨(List.range (n + 1)).map (fun k => (100, 100 * k)), .ok acc2⟩) ∧
    (∃ ms, get_meetings_in_date_range env s e fuel = some (.ok ms)) := by
  obtain ⟨acc2, htr⟩ := page_loop_trace env (tz_normalize s) (tz_normalize e)
    (tz_normalize_aware s) (tz_normalize_aware e) hAware n 0 ⟨[], []⟩ []
    (fun k hk => by simpa using hmin k hk)
    (by simpa using hshort) fuel hfuel
  have htr2 : page_loop env (tz_normalize s) (tz_normalize e) fuel 0 ⟨[], []⟩ [] =
      some ⟨(List.range (n + 1)).map (fun k => (100, 100 * k)), .ok acc2⟩ := by
    simpa using htr
  constructor
  · exact ⟨acc2, htr2⟩
  · refine ⟨acc2.meetings, ?_⟩
    unfold get_meetings_in_date_range
    rw [htr2]
    rfl

/-- C5 witness: a full page of 100 documents at offset 0 followed by an
empty page at offset 100 terminates after requesting exactly
`(100, 0), (100, 100)`. -/
theorem pagination_trace_and_termination_witness :
    (∃ acc2, page_loop c5_env (tz_normalize ⟨true, 0⟩) (tz_normalize ⟨true, 10⟩) 2 0 ⟨[], []⟩ [] =
        some ⟨(List.range 2).map (fun k => (100, 100 * k)), .ok acc2⟩) ∧
    (∃ ms, get_meetings_in_date_range c5_env ⟨true, 0⟩ ⟨true, 10⟩ 2 = some (.ok ms)) := by
  apply pagination_trace_and_termination c5_env ⟨true, 0⟩ ⟨true, 10⟩ 1 2
  · intro limit off d hd
    by_cases h : off = 0
    · subst h
      simp [c5_env, List.mem_replicate] at hd
      simp [hd, c5_doc]
    · simp [c5_env, h] at hd
  · intro k hk
    have hk0 : k = 0 := by omega
    subst hk0
    simp [c5_env]
  · simp [c5_env]
  · omega

/-- C6: an in-range document whose transcript fetch fails changes nothing in
the meetings produced by the scan of its page — the result equals the scan
of the same page without that document, so the document is omitted and every
other document and page is still processed — and, whenever the page
processing succeeds, the warning for that document has been logged. -/
theorem transcript_failure_isolated (env : FetchEnv) (s e : PyDatetime)
    (pre post : List Doc) (bad : Doc) (msg : String) (m : List Meeting) (w : List String)
    (hin : dt_between s e (parse_created_at bad.created_at) = .ok true)
    (hfail : env.transcript bad.id = .error msg) :
    ((process_docs env s e (pre ++ bad :: post) ⟨m, w⟩).map Accum.meetings =
      (process_docs env s e (pre ++ post) ⟨m, w⟩).map Accum.meetings) ∧
    (∀ res, process_docs env s e (pre ++ bad :: post) ⟨m, w⟩ = .ok res →
      transcript_warning bad msg ∈ res.warnings) := by
  have hbad : ∀ acc : Accum, process_doc env s e acc bad =
      .ok ⟨acc.meetings, acc.warnings ++ [transcript_warning bad msg]⟩ := by
    intro acc
    unfold process_doc
    rw [hin, hfail]
  constructor
  · rw [process_docs_append env s e pre (bad :: post) ⟨m, w⟩,
        process_docs_append env s e pre post ⟨m, w⟩]
    cases hpre : process_docs env s e pre ⟨m, w⟩ with
    | error err => rfl
    | ok acc1 =>
      show (process_docs env s e (bad :: post) acc1).map Accum.meetings =
        (process_docs env s e post acc1).map Accum.meetings
      have hstep : process_docs env s e (bad :: post) acc1 =
          process_docs env s e post ⟨acc1.meetings, acc1.warnings ++ [transcript_warning bad msg]⟩ := by
        simp [process_docs, hbad acc1]
      rw [hstep]
      exact process_docs_meetings_indep env s e post acc1.meetings
        (acc1.warnings ++ [transcript_warning bad msg]) acc1.warnings
  · intro res hres
    rw [process_docs_append env s e pre (bad :: post) ⟨m, w⟩] at hres
    cases hpre : process_docs env s e pre ⟨m, w⟩ with
    | error err =>
      rw [hpre] at hres
      have himp : (Except.error err : Except String Accum) = .ok res := hres
      cases himp
    | ok acc1 =>
      rw [hpre] at hres
      have hres2 : process_docs env s e (bad :: post) acc1 = .ok res := hres
      have hstep : process_docs env s e (bad :: post) acc1 =
          process_docs env s e post ⟨acc1.meetings, acc1.warnings ++ [transcript_warning bad msg]⟩ := by
        simp [process_docs, hbad acc1]
      rw [hstep] at hres2
      exact process_docs_warning_mono env s e post
        ⟨acc1.meetings, acc1.warnings ++ [transcript_warning bad msg]⟩
        (transcript_warning bad msg) (by simp) res hres2

/-- C6 witness: in the page `[good1, bad, good2]` with bounds `[0, 100]`,
the failing document `bad` is omitted, the two good documents are kept, and
the warning for `bad` is logged. -/
theorem transcript_failure_isolated_witness :
    ((process_docs c6_env ⟨true, 0⟩ ⟨true, 100⟩ ([c6_good1] ++ c6_bad :: [c6_good2]) ⟨[], []⟩).map
        Accum.meetings =
      (process_docs c6_env ⟨true, 0⟩ ⟨true, 100⟩ ([c6_good1] ++ [c6_good2]) ⟨[], []⟩).map
        Accum.meetings) ∧
    (∀ res, process_docs c6_env ⟨true, 0⟩ ⟨true, 100⟩ ([c6_good1] ++ c6_bad :: [c6_good2]) ⟨[], []⟩ =
        .ok res → transcript_warning c6_bad "boom" ∈ res.warnings) :=
  transcript_failure_isolated c6_env ⟨true, 0⟩ ⟨true, 100⟩ [c6_good1] [c6_good2] c6_bad "boom" [] []
    (by decide) (by decide)

/-- C8 counterexample: with four feedback files dated 1, 2, 3 and 4 days
before day 10 — all inside the 1-7 day window — the file 4 days old is a
candidate but its content `"d"` is NOT included (the code keeps only
`feedback_files[:3]`), refuting "includes the content of every file whose
date is 1 to 7 days before today". -/
theorem previous_feedback_fourth_file_dropped :
    (⟨"feedback_06", 6, "d"⟩ : FeedbackFile) ∈ feedback_candidates 10 c8_files ∧
    (⟨"feedback_06", 6, "d"⟩ : FeedbackFile) ∉ selected_feedback 10 c8_files ∧
    load_previous_feedback 10 c8_files = some "[9]\na\n\n[8]\nb\n\n[7]\nc" := by
  refine ⟨by decide, by decide, by decide⟩

/-- C8 (amended): `_load_previous_feedback` draws only on files dated 1 to 7
days before today — every file dated today (0 days) or 8+ days ago is
excluded, and everything selected lies in the window — but it includes the
contents of at most 3 such files (the most recent by date and name); every
window file is included only when at most 3 exist. -/
theorem previous_feedback_window_and_cap :
    (∀ (today : Int) (files : List FeedbackFile) (f : FeedbackFile), f ∈ files →
      (today - f.date ≤ 0 ∨ 8 ≤ today - f.date) → f ∉ selected_feedback today files) ∧
    (∀ (today : Int) (files : List FeedbackFile) (f : FeedbackFile),
      f ∈ selected_feedback today files →
      f ∈ files ∧ 1 ≤ today - f.date ∧ today - f.date ≤ 7) ∧
    (∀ (today : Int) (files : List FeedbackFile), (selected_feedback today files).length ≤ 3) ∧
    (∀ (today : Int) (files : List FeedbackFile) (f : FeedbackFile),
      (feedback_candidates today files).length ≤ 3 →
      f ∈ feedback_candidates today files → f ∈ selected_feedback today files) := by
  have hmem : ∀ (today : Int) (files : List FeedbackFile) (f : FeedbackFile),
      f ∈ selected_feedback today files → f ∈ feedback_candidates today files := by
    intro today files f hf
    have h1 : f ∈ sort_files_desc (feedback_candidates today files) :=
      List.take_subset 3 _ hf
    unfold sort_files_desc at h1
    rwa [List.mem_insertionSort] at h1
  refine ⟨?_, ?_, ?_, ?_⟩
  · intro today files f hf hout hsel
    have hc := hmem today files f hsel
    unfold feedback_candidates at hc
    rw [List.mem_filter] at hc
    have hw := hc.2
    simp only [feedback_in_window, Bool.and_eq_true, decide_eq_true_eq] at hw
    omega
  · intro today files f hf
    have hc := hmem today files f hf
    unfold feedback_candidates at hc
    rw [List.mem_filter] at hc
    have hw := hc.2
    simp only [feedback_in_window, Bool.and_eq_true, decide_eq_true_eq] at hw
    exact ⟨hc.1, hw.1, hw.2⟩
  · intro today files
    exact List.length_take_le 3 _
  · intro today files f hlen hf
    unfold selected_feedback
    have hperm := List.perm_insertionSort fbGe (feedback_candidates today files)
    have hlen2 : (sort_files_desc (feedback_candidates today files)).length ≤ 3 := by
      unfold sort_files_desc
      rw [hperm.length_eq]
      exact hlen
    rw [List.take_of_length_le hlen2]
    unfold sort_files_desc
    rwa [List.mem_insertionSort]

/-- C8 witness: a file dated today and a file dated 8 days ago are excluded,
while with two window files both are selected. -/
theorem previous_feedback_window_and_cap_witness :
    (⟨"feedback_10", 10, "x"⟩ : FeedbackFile) ∉
      selected_feedback 10 [⟨"feedback_10", 10, "x"⟩, ⟨"feedback_09", 9, "a"⟩] ∧
    (⟨"feedback_02", 2, "y"⟩ : FeedbackFile) ∉
      selected_feedback 10 [⟨"feedback_02", 2, "y"⟩, ⟨"feedback_09", 9, "a"⟩] ∧
    (⟨"feedback_09", 9, "a"⟩ : FeedbackFile) ∈
      selected_feedback 10 [⟨"feedback_02", 2, "y"⟩, ⟨"feedback_09", 9, "a"⟩] := by
  refine ⟨?_, ?_, ?_⟩
  · exact previous_feedback_window_and_cap.1 10 _ _ (by decide) (by decide)
  · exact previous_feedback_window_and_cap.1 10 _ _ (by decide) (by decide)
  · exact previous_feedback_window_and_cap.2.2.2 10 _ _ (by decide) (by decide)

end Granola
